import Mathlib

/-!
galaxykube: feature gates and the common xstore reconcile steps

A shallow embedding of

* `pkg/operator/v1/featuregate/featuregates.go`
  (`FeatureGate`, `declareFeatureGate`, `EnableFeatureGates`), and
* `pkg/operator/v1/xstore/plugin/common/steps/common.go`
  (`parseChannelFromConfigMap`, `transformPodsIntoNodes`,
  `transformPodsIntoNodesWithHeadlessServices`, `UnblockBootstrap`,
  `setElectionWeightToOne`, `SetVoterElectionWeightToOne`).

Go maps with string keys are functions or association lists, a panic is `none`,
a Go `error` is `Except`, and every call that leaves the process (API reads and
writes, leader resolution, remote execution) is answered by a field of
`Context` and recorded in a trace of `Event`s.
-/

namespace GalaxyKube

/-! ## featuregate -/

/-- The Go struct `FeatureGate` of `featuregates.go`. -/
structure FeatureGate where
  key : String
  enabled : Bool
  static : Bool
  description : String
deriving DecidableEq, Repr

/-- The method `(*FeatureGate).Key`. -/
def FeatureGate.Key (g : FeatureGate) : String := g.key

/-- The method `(*FeatureGate).Enabled`. -/
def FeatureGate.Enabled (g : FeatureGate) : Bool := g.enabled

/-- The method `(*FeatureGate).Description`. -/
def FeatureGate.Description (g : FeatureGate) : String := g.description

/-- The package variable `featureGateStore`, a `map[string]*FeatureGate`: a key
is either absent (`none`) or bound to one gate. -/
abbrev FeatureGateStore := String → Option FeatureGate

/-- The store `make(map[string]*FeatureGate)` before any declaration. -/
def emptyFeatureGateStore : FeatureGateStore := fun _ => none

/-- The function `declareFeatureGate`: `none` is the panic on a duplicate key,
otherwise the new gate and the store with `featureGateStore[key] = featureGate`. -/
def declareFeatureGate (store : FeatureGateStore) (key : String) (enabled static : Bool)
    (description : String) : Option (FeatureGate × FeatureGateStore) :=
  match store key with
  | some _ => none
  | none =>
    let featureGate : FeatureGate :=
      { key := key, enabled := enabled, static := static, description := description }
    some (featureGate, fun k => if k = key then some featureGate else store k)

/-- The eight declarations of the `var ( ... )` block, in source order:
key, enabled, static, description. -/
def declaredFeatureGates : List (String × Bool × Bool × String) :=
  [ ("StoreUpgrade", false, true, "Enable store upgrading."),
    ("StoreDynamicConfig", false, true, "Enable dynamic config updating on stores."),
    ("AutoDataRebalance", true, true, "Rebalance data automatically when scaling."),
    ("WaitDrainedNodeToBeOffline", true, true,
      "Enable waiting until drained nodes are marked offline when no CDC nodes found."),
    ("EnableGalaxyCluster", false, true, "Enable cluster mode on galaxy store engine."),
    ("EnforceQoSGuaranteed", false, false, "Enforce pod's QoS to Guaranteed."),
    ("ResetTrustIpsBeforeStart", false, true,
      "Reset trust ips in CNs to avoid security problems."),
    ("EnableXStoreWithHeadlessService", true, false,
      "Use headless services for pods in xstore.") ]

/-- Package initialisation: the declarations run in order on the empty store;
`none` if one of them panics. -/
def initFeatureGateStore : Option FeatureGateStore :=
  declaredFeatureGates.foldlM
    (fun store d => (declareFeatureGate store d.1 d.2.1 d.2.2.1 d.2.2.2).map Prod.snd)
    emptyFeatureGateStore

/-- The package variable `featureGateStore` once the package is initialised. -/
def featureGateStore : FeatureGateStore :=
  initFeatureGateStore.getD emptyFeatureGateStore

/-- The body of the loop of `EnableFeatureGates` for one key:
`fg := featureGateStore[featureGate]; if fg != nil && !fg.static { fg.enabled = true }`. -/
def enableFeatureGate (store : FeatureGateStore) (featureGate : String) : FeatureGateStore :=
  match store featureGate with
  | some fg =>
    if !fg.static then
      fun k => if k = featureGate then some { fg with enabled := true } else store k
    else store
  | none => store

/-- The function `EnableFeatureGates`: the loop over the given keys. -/
def EnableFeatureGates (store : FeatureGateStore) (featureGates : List String) :
    FeatureGateStore :=
  featureGates.foldl enableFeatureGate store

/-! ## Kubernetes objects read by the steps -/

set_option linter.dupNamespace false in
/-- The fields of `corev1.ContainerPort` the steps read. -/
structure ContainerPort where
  Name : String
  ContainerPort : Int
deriving DecidableEq, Repr

/-- The fields of `corev1.Container` the steps read. -/
structure Container where
  Name : String
  Ports : List ContainerPort
deriving DecidableEq, Repr

/-- The fields of `corev1.PodSpec` the steps read. -/
structure PodSpec where
  NodeName : String
  Subdomain : String
  Containers : List Container
deriving DecidableEq, Repr

/-- The fields of `corev1.PodStatus` the steps read. -/
structure PodStatus where
  PodIP : String
deriving DecidableEq, Repr

/-- The fields of `corev1.Pod` the steps read; `Labels` is a `map[string]string`. -/
structure Pod where
  Name : String
  Labels : List (String × String)
  Spec : PodSpec
  Status : PodStatus
deriving DecidableEq, Repr

/-- Indexing a Go `map[string]string`: the zero value `""` for an absent key. -/
def mapIndex (m : List (String × String)) (k : String) : String :=
  (m.lookup k).getD ""

/-- Assigning `m[k] = v` in a Go `map[string]string`. -/
def mapAssign (m : List (String × String)) (k v : String) : List (String × String) :=
  (k, v) :: m.filter (fun e => e.1 != k)

/-- The fields of `corev1.ConfigMap` the steps read and write. -/
structure ConfigMap where
  Data : List (String × String)
deriving DecidableEq, Repr

/-! ## Names and helpers of sibling packages -/

/-- Constants and naming functions of the packages `convention`, `xstoremeta` and
`channel`, whose source is not part of the development: they are parameters. -/
structure Convention where
  ContainerEngine : String
  LabelNodeRole : String
  RoleVoter : String
  SharedChannelKey : String
  NewHeadlessServiceName : String → String

/-- Modelled from the spec: `channel.Node`, the node descriptor
`{ podName, host, hostName, port, role, domain (optional) }`; an omitted
`domain` is the empty string. -/
structure Node where
  Pod : String
  Host : String
  HostName : String
  Port : Int
  Role : String
  Domain : String
deriving DecidableEq, Repr

/-- Modelled from the spec: `channel.SharedChannel`, the record
`{ blocked, nodes }`. -/
structure SharedChannel where
  Blocked : Bool
  Nodes : List Node
deriving DecidableEq, Repr

/-- Modelled from the spec: `(*SharedChannel).IsBlocked`, the `blocked` flag. -/
def SharedChannel.IsBlocked (sc : SharedChannel) : Bool := sc.Blocked

/-- Modelled from the spec: `(*SharedChannel).Unblock`, "mark `blocked=false`". -/
def SharedChannel.Unblock (sc : SharedChannel) : SharedChannel := { sc with Blocked := false }

/-- Modelled from the spec: `k8shelper.MustGetContainerFromPod`, the container
of the given name; its absence is a fatal failure (a panic, `none`). -/
def MustGetContainerFromPod (pod : Pod) (name : String) : Option Container :=
  pod.Spec.Containers.find? (fun c => c.Name == name)

/-- Modelled from the spec: `k8shelper.MustGetPortFromContainer`, the container
port of the given name; its absence is a fatal failure (a panic, `none`). -/
def MustGetPortFromContainer (container : Container) (name : String) : Option ContainerPort :=
  container.Ports.find? (fun p => p.Name == name)

/-- Modelled from the spec: `xstoremeta.IsPodRoleVoter`, the pod's role label
marks it a voter. -/
def IsPodRoleVoter (conv : Convention) (pod : Pod) : Bool :=
  mapIndex pod.Labels conv.LabelNodeRole == conv.RoleVoter

/-- Modelled from the spec: `k8shelper.FilterPodsBy`, the pods satisfying the
predicate, in listing order. -/
def FilterPodsBy (pods : List Pod) (pred : Pod → Bool) : List Pod :=
  pods.filter pred

/-- Modelled from the spec: `k8shelper.ToObjectNames`, the names of the pods, in
listing order. -/
def ToObjectNames (pods : List Pod) : List String :=
  pods.map (fun pod => pod.Name)

/-! ## steps/common.go: node transformation -/

/-- The body of the loop of `transformPodsIntoNodes` for one pod: the node built
from it, or `none` when a `Must...` helper panics. -/
def podIntoNode (conv : Convention) (pod : Pod) : Option Node :=
  match MustGetContainerFromPod pod conv.ContainerEngine with
  | none => none
  | some container =>
    match MustGetPortFromContainer container "paxos" with
    | none => none
    | some port =>
      let paxosPort := port.ContainerPort
      let node : Node :=
        { Pod := pod.Name
          Host := pod.Status.PodIP
          HostName := pod.Spec.NodeName
          Port := paxosPort
          Role := mapIndex pod.Labels conv.LabelNodeRole
          Domain := "" }
      if pod.Spec.Subdomain.length > 0 then
        some { node with Domain := pod.Name ++ "." ++ pod.Spec.Subdomain }
      else
        some node

/-- Whether a pod has an engine container with a port named `paxos`, that is,
whether neither `Must...` helper panics on it. -/
def HasPaxosPort (conv : Convention) (pod : Pod) : Bool :=
  match MustGetContainerFromPod pod conv.ContainerEngine with
  | none => false
  | some container => (MustGetPortFromContainer container "paxos").isSome

/-- The function `transformPodsIntoNodes`: the loop appends one node per pod to
`nodes`, starting from the empty slice; `none` when an iteration panics. -/
def transformPodsIntoNodes (conv : Convention) (_namespace : String) (pods : List Pod) :
    Option (List Node) :=
  pods.foldlM
    (fun nodes pod =>
      match podIntoNode conv pod with
      | none => none
      | some node => some (nodes ++ [node]))
    []

/-- The function `transformPodsIntoNodesWithHeadlessServices`: every host of
the transformed nodes is reset to `NewHeadlessServiceName(nodes[i].Pod)`. -/
def transformPodsIntoNodesWithHeadlessServices (conv : Convention) (_namespace : String)
    (pods : List Pod) : Option (List Node) :=
  match transformPodsIntoNodes conv _namespace pods with
  | none => none
  | some nodes =>
    some (nodes.map (fun node => { node with Host := conv.NewHeadlessServiceName node.Pod }))

/-- A pod with its IP forgotten: two pods that differ only in their IPs have
the same image. -/
def withoutPodIP (pod : Pod) : Pod :=
  { pod with Status := { PodIP := "" } }

/-! ## steps/common.go: the reconcile steps -/

/-- A Go `error`, kept as its message. -/
abbrev Err := String

/-- Modelled from the spec: a value of the key/value pairs attached to
`flow.Error`. -/
inductive Field where
  | Str (s : String)
  | Strs (l : List String)
deriving DecidableEq, Repr

/-- Modelled from the spec: the outcome a step returns through `control.Flow`
(`flow.Continue`, `flow.Pass`, `flow.Wait`, `flow.Error`; the spec calls the
last one `Fail`). -/
inductive FlowResult where
  | Continue (msg : String)
  | Pass
  | Wait (msg : String)
  | Error (err : Err) (msg : String) (keysAndValues : List (String × Field))
deriving DecidableEq, Repr

/-- Modelled from the spec: the command built by
`NewCanonicalCommandBuilder().Consensus().ConfigureElectionWeight(w, names...).Build()`,
"set election weight `w` for node set `names`". -/
structure Command where
  weight : Int
  targets : List String
deriving DecidableEq, Repr

/-- The `time.Second` constant, in nanoseconds. -/
def Second : Nat := 1000000000

/-- The field of `control.ExecOptions` that matters here (the logger is left out). -/
structure ExecOptions where
  Timeout : Nat
deriving DecidableEq, Repr

/-- The calls of a step that leave the process, in the order they are made. -/
inductive Event where
  | GetXStoreConfigMap
  | GetXStorePods
  | Update (cm : ConfigMap) (ok : Bool)
  | TryGetXStoreLeaderPod
  | ExecuteCommandOn (pod : Pod) (container : String) (cmd : Command) (opts : ExecOptions)
deriving DecidableEq, Repr

/-- The serialisation of the shared channel, `(*SharedChannel).Load` and
`(*SharedChannel).String` of the package `channel`, whose source is not part of
the development: a parameter. -/
structure ChannelCodec where
  Load : String → Except Err SharedChannel
  String : SharedChannel → String

/-- The reconcile context `rc` as the steps see it during one invocation: what
each external call answers (`some err` / `.error err` is a failing call), the
names and the serialisation in use, and the feature gate consulted. -/
structure Context where
  conv : Convention
  codec : ChannelCodec
  Namespace : String
  getXStoreConfigMapErr : Option Err
  GetXStorePods : Except Err (List Pod)
  updateErr : Option Err
  EnableXStoreWithHeadlessService : FeatureGate
  TryGetXStoreLeaderPod : Except Err (Option Pod)
  ExecuteCommandOn : Pod → String → Command → ExecOptions → Option Err

/-- What one invocation of a step leaves behind: its flow result (`none` when it
panicked), the shared config map as persisted afterwards, and the external
calls it made. -/
structure Outcome where
  result : Option FlowResult
  persisted : ConfigMap
  trace : List Event
deriving DecidableEq, Repr

/-- The function `parseChannelFromConfigMap`. -/
def parseChannelFromConfigMap (rc : Context) (cm : ConfigMap) : Except Err SharedChannel :=
  match rc.codec.Load (mapIndex cm.Data rc.conv.SharedChannelKey) with
  | .error err => .error err
  | .ok sharedChannel => .ok sharedChannel

/-- The step `UnblockBootstrap`, run on the persisted shared config map. -/
def UnblockBootstrap (rc : Context) (persisted : ConfigMap) : Outcome :=
  match rc.getXStoreConfigMapErr with
  | some err =>
    { result := some (.Error err "Unable to get shared config map." [])
      persisted := persisted
      trace := [.GetXStoreConfigMap] }
  | none =>
    let sharedCm := persisted
    match parseChannelFromConfigMap rc sharedCm with
    | .error err =>
      { result := some (.Error err "Unable to parse shared channel from config map." [])
        persisted := persisted
        trace := [.GetXStoreConfigMap] }
    | .ok sharedChannel =>
      -- Branch currently unblocked, just skip.
      if !sharedChannel.IsBlocked then
        { result := some .Pass
          persisted := persisted
          trace := [.GetXStoreConfigMap] }
      else
        -- Unblock and set nodes info and others.
        let sharedChannel := sharedChannel.Unblock
        match rc.GetXStorePods with
        | .error err =>
          { result := some (.Error err "Unable to get pods." [])
            persisted := persisted
            trace := [.GetXStoreConfigMap, .GetXStorePods] }
        | .ok pods =>
          let transformed :=
            if rc.EnableXStoreWithHeadlessService.Enabled then
              transformPodsIntoNodesWithHeadlessServices rc.conv rc.Namespace pods
            else
              transformPodsIntoNodes rc.conv rc.Namespace pods
          match transformed with
          | none =>
            { result := none
              persisted := persisted
              trace := [.GetXStoreConfigMap, .GetXStorePods] }
          | some nodes =>
            let sharedChannel := { sharedChannel with Nodes := nodes }
            -- update configmap.
            let sharedCm : ConfigMap :=
              { sharedCm with
                Data := mapAssign sharedCm.Data rc.conv.SharedChannelKey (rc.codec.String sharedChannel) }
            match rc.updateErr with
            | some err =>
              { result := some (.Error err "Unable to update shared config map." [])
                persisted := persisted
                trace := [.GetXStoreConfigMap, .GetXStorePods, .Update sharedCm false] }
            | none =>
              { result := some (.Continue "Unblock via shared channel.")
                persisted := sharedCm
                trace := [.GetXStoreConfigMap, .GetXStorePods, .Update sharedCm true] }

/-- The function `setElectionWeightToOne`: the command it builds and the
remote execution it asks for; the result is the `error` of the execution. -/
def setElectionWeightToOne (rc : Context) (leaderPod : Pod) (targetPods : List Pod) :
    Event × Option Err :=
  let cmd : Command := { weight := 1, targets := ToObjectNames targetPods }
  let opts : ExecOptions := { Timeout := 2 * Second }
  (.ExecuteCommandOn leaderPod rc.conv.ContainerEngine cmd opts,
   rc.ExecuteCommandOn leaderPod rc.conv.ContainerEngine cmd opts)

/-- The step `SetVoterElectionWeightToOne`; it never touches the shared config
map, which is passed through. -/
def SetVoterElectionWeightToOne (rc : Context) (persisted : ConfigMap) : Outcome :=
  match rc.GetXStorePods with
  | .error err =>
    { result := some (.Error err "Unable to get pods." [])
      persisted := persisted
      trace := [.GetXStorePods] }
  | .ok pods =>
    let voterPods := FilterPodsBy pods (fun pod => IsPodRoleVoter rc.conv pod)
    if voterPods.length = 0 then
      { result := some .Pass
        persisted := persisted
        trace := [.GetXStorePods] }
    else
      match rc.TryGetXStoreLeaderPod with
      | .error err =>
        { result := some (.Error err "Unable to get leader pod." [])
          persisted := persisted
          trace := [.GetXStorePods, .TryGetXStoreLeaderPod] }
      | .ok none =>
        { result := some (.Wait "No leader pod found.")
          persisted := persisted
          trace := [.GetXStorePods, .TryGetXStoreLeaderPod] }
      | .ok (some leaderPod) =>
        match setElectionWeightToOne rc leaderPod voterPods with
        | (ev, some err) =>
          { result := some (.Error err "Unable to set election weight to 1."
              [("leader-pod", .Str leaderPod.Name),
               ("voter-pods", .Strs (ToObjectNames voterPods))])
            persisted := persisted
            trace := [.GetXStorePods, .TryGetXStoreLeaderPod, ev] }
        | (ev, none) =>
          { result := some .Pass
            persisted := persisted
            trace := [.GetXStorePods, .TryGetXStoreLeaderPod, ev] }

/-! ## Reading a trace -/

/-- The config maps written by the successful `Update` calls of a trace. -/
def writes : List Event → List ConfigMap
  | [] => []
  | .Update cm true :: rest => cm :: writes rest
  | _ :: rest => writes rest

/-- The number of pod fetches in a trace. -/
def podFetches (trace : List Event) : Nat :=
  trace.countP (fun e => e == .GetXStorePods)

/-- The number of leader resolutions in a trace. -/
def leaderResolutions (trace : List Event) : Nat :=
  trace.countP (fun e => e == .TryGetXStoreLeaderPod)

/-- The remote commands of a trace: target pod, container, command, options. -/
def commands : List Event → List (Pod × String × Command × ExecOptions)
  | [] => []
  | .ExecuteCommandOn pod container cmd opts :: rest => (pod, container, cmd, opts) :: commands rest
  | _ :: rest => commands rest

/-- The shared channel string of a config map, `cm.Data[channel.SharedChannelKey]`. -/
def channelString (rc : Context) (cm : ConfigMap) : String :=
  mapIndex cm.Data rc.conv.SharedChannelKey

/-! ## Test fixtures -/

/-- The names the operator uses, for the concrete scenarios below. -/
def testConvention : Convention :=
  { ContainerEngine := "engine"
    LabelNodeRole := "xstore/node-role"
    RoleVoter := "voter"
    SharedChannelKey := "shared"
    NewHeadlessServiceName := fun podName => podName }

/-- A pod with an engine container exposing the port `paxos`. -/
def testPod (name ip role : String) : Pod :=
  { Name := name
    Labels := [("xstore/node-role", role)]
    Spec :=
      { NodeName := "host-" ++ name
        Subdomain := ""
        Containers := [{ Name := "engine", Ports := [{ Name := "paxos", ContainerPort := 11306 }] }] }
    Status := { PodIP := ip } }

/-- A pod without any container: the engine container lookup panics on it. -/
def brokenPod : Pod :=
  { Name := "px"
    Labels := []
    Spec := { NodeName := "", Subdomain := "", Containers := [] }
    Status := { PodIP := "" } }

/-- The three pods of the end-to-end scenario: `p0` leader-eligible, `p1` and
`p2` voters. -/
def scenarioPods : List Pod :=
  [testPod "p0" "ip0" "candidate", testPod "p1" "ip1" "voter", testPod "p2" "ip2" "voter"]

/-- A small serialisation for the scenarios: the flag, then the pod names. -/
def testString (sc : SharedChannel) : String :=
  (if sc.Blocked then "b:" else "o:") ++ ",".intercalate (sc.Nodes.map (fun n => n.Pod))

/-- A small parser for the scenarios: it reads the flag back. -/
def testLoad (s : String) : Except Err SharedChannel :=
  match s.data with
  | 'b' :: _ => .ok { Blocked := true, Nodes := [] }
  | 'o' :: _ => .ok { Blocked := false, Nodes := [] }
  | _ => .error "malformed"

/-- The serialisation of the scenarios. -/
def testCodec : ChannelCodec :=
  { Load := testLoad, String := testString }

/-- A context in which every external call succeeds: the pod fetch answers
`pods`, leader resolution answers `leader`, the headless gate is `headless`. -/
def testContext (pods : List Pod) (headless : Bool) (leader : Option Pod) : Context :=
  { conv := testConvention
    codec := testCodec
    Namespace := "default"
    getXStoreConfigMapErr := none
    GetXStorePods := .ok pods
    updateErr := none
    EnableXStoreWithHeadlessService :=
      { key := "EnableXStoreWithHeadlessService", enabled := headless, static := false,
        description := "Use headless services for pods in xstore." }
    TryGetXStoreLeaderPod := .ok leader
    ExecuteCommandOn := fun _ _ _ _ => none }

/-- The context `testContext pods false leader` in which every remote execution
fails. -/
def failingExecContext (pods : List Pod) (leader : Option Pod) : Context :=
  { testContext pods false leader with
    ExecuteCommandOn := fun _ _ _ _ => some "command timed out" }

/-- The shared config map as the initialisation leaves it: blocked, no nodes. -/
def blockedConfigMap : ConfigMap :=
  { Data := [("shared", "b:")] }

/-! ## Feature gates: what the runtime-enable path changes -/

/-- One pass of the loop body rewrites the gate bound to `k` (if any) by
switching it on exactly when it is not static and `k` is the key handled. -/
theorem enableFeatureGate_apply (store : FeatureGateStore) (featureGate k : String) :
    enableFeatureGate store featureGate k =
      (store k).map (fun g =>
        { g with enabled := g.enabled || (!g.static && decide (k = featureGate)) }) := by
  unfold enableFeatureGate
  cases hf : store featureGate with
  | none =>
    by_cases hk : k = featureGate
    · subst hk; simp [hf]
    · cases hs : store k with
      | none => simp [hs]
      | some g => cases g; simp [hk, hs]
  | some fg =>
    by_cases hst : fg.static = true
    · by_cases hk : k = featureGate
      · subst hk; cases fg; simp_all
      · cases hs : store k with
        | none => simp [hst, hs]
        | some g => cases g; simp [hk, hst, hs]
    · have hst2 : fg.static = false := by simpa using hst
      by_cases hk : k = featureGate
      · subst hk; simp [hf, hst2]
      · cases hs : store k with
        | none => simp [hst2, hk, hs]
        | some g => cases g; simp [hk, hst2, hs]

/-- The whole loop rewrites the gate bound to `k` (if any) by switching it on
exactly when it is not static and `k` is among the keys. -/
theorem EnableFeatureGates_apply (featureGates : List String) (store : FeatureGateStore)
    (k : String) :
    EnableFeatureGates store featureGates k =
      (store k).map (fun g =>
        { g with enabled := g.enabled || (!g.static && decide (k ∈ featureGates)) }) := by
  unfold EnableFeatureGates
  induction featureGates generalizing store with
  | nil =>
    cases hs : store k with
    | none => simp [hs]
    | some g => cases g; simp [hs]
  | cons f rest ih =>
    rw [List.foldl_cons, ih, enableFeatureGate_apply]
    cases hs : store k with
    | none => simp
    | some g =>
      cases g with
      | mk key enabled static description =>
        by_cases hk : k = f <;> cases enabled <;> cases static <;> simp [hk]

/-- A key that is not registered leaves the store as it is. -/
theorem enableFeatureGate_unknown (store : FeatureGateStore) (featureGate : String)
    (h : store featureGate = none) : enableFeatureGate store featureGate = store := by
  unfold enableFeatureGate
  simp [h]

/-- A gate declared by `declareFeatureGate` is registered under its own key,
with the declared values. -/
theorem declareFeatureGate_registers (store : FeatureGateStore) (key : String)
    (enabled static : Bool) (description : String) (g : FeatureGate)
    (store1 : FeatureGateStore)
    (h : declareFeatureGate store key enabled static description = some (g, store1)) :
    store1 key = some g ∧ g.key = key ∧ g.enabled = enabled ∧ g.static = static := by
  unfold declareFeatureGate at h
  cases hs : store key with
  | some g0 => simp [hs] at h
  | none =>
    simp only [hs, Option.some.injEq, Prod.mk.injEq] at h
    obtain ⟨hg, hst⟩ := h
    subst hg; subst hst
    simp

/-- C8. Static toggle immutability: after `EnableFeatureGates store keys`, a
gate registered under `k` is still registered under `k` with the same key,
static flag and description; if it is static its enabled value is what it was;
if it is not static it is enabled iff it was enabled before or `k` occurs in
`keys`; an enabled gate stays enabled; a key bound to no gate is still bound to
none, and handling such a key changes nothing. -/
theorem EnableFeatureGates_static_immutable (store : FeatureGateStore) (keys : List String) :
    (∀ k g, store k = some g →
      ∃ g1, EnableFeatureGates store keys k = some g1 ∧
        g1.key = g.key ∧ g1.static = g.static ∧ g1.description = g.description ∧
        (g.static = true → g1.enabled = g.enabled) ∧
        (g.static = false → (g1.enabled = true ↔ (g.enabled = true ∨ k ∈ keys))) ∧
        (g.enabled = true → g1.enabled = true)) ∧
    (∀ k, store k = none → EnableFeatureGates store keys k = none) ∧
    (∀ k, store k = none → EnableFeatureGates store (k :: keys) = EnableFeatureGates store keys) := by
  refine ⟨?_, ?_, ?_⟩
  · intro k g hg
    refine ⟨{ g with enabled := g.enabled || (!g.static && decide (k ∈ keys)) },
      by rw [EnableFeatureGates_apply, hg]; rfl, rfl, rfl, rfl, ?_, ?_, ?_⟩
    · intro hs; simp [hs]
    · intro hs; simp [hs]
    · intro he; simp [he]
  · intro k hk
    rw [EnableFeatureGates_apply, hk]; rfl
  · intro k hk
    unfold EnableFeatureGates
    rw [List.foldl_cons, enableFeatureGate_unknown store k hk]

/-- C8, at the declared gates: enabling `StoreUpgrade` (static),
`EnforceQoSGuaranteed` (not static) and an unknown key leaves `StoreUpgrade`
disabled and switches `EnforceQoSGuaranteed` on. -/
theorem EnableFeatureGates_static_immutable_witness :
    featureGateStore "StoreUpgrade" =
        some ⟨"StoreUpgrade", false, true, "Enable store upgrading."⟩ ∧
    featureGateStore "EnforceQoSGuaranteed" =
        some ⟨"EnforceQoSGuaranteed", false, false, "Enforce pod's QoS to Guaranteed."⟩ ∧
    (∃ g1, EnableFeatureGates featureGateStore
        ["StoreUpgrade", "EnforceQoSGuaranteed", "NoSuchGate"] "StoreUpgrade" = some g1 ∧
      g1.enabled = false) ∧
    (∃ g1, EnableFeatureGates featureGateStore
        ["StoreUpgrade", "EnforceQoSGuaranteed", "NoSuchGate"] "EnforceQoSGuaranteed" = some g1 ∧
      g1.enabled = true) ∧
    EnableFeatureGates featureGateStore
        ["StoreUpgrade", "EnforceQoSGuaranteed", "NoSuchGate"] "NoSuchGate" = none := by
  have h := EnableFeatureGates_static_immutable featureGateStore
    ["StoreUpgrade", "EnforceQoSGuaranteed", "NoSuchGate"]
  have h1 : featureGateStore "StoreUpgrade" =
      some ⟨"StoreUpgrade", false, true, "Enable store upgrading."⟩ := by decide
  have h2 : featureGateStore "EnforceQoSGuaranteed" =
      some ⟨"EnforceQoSGuaranteed", false, false, "Enforce pod's QoS to Guaranteed."⟩ := by decide
  have h3 : featureGateStore "NoSuchGate" = none := by decide
  refine ⟨h1, h2, ?_, ?_, h.2.1 _ h3⟩
  · obtain ⟨g1, hg, _, _, _, hst, _, _⟩ := h.1 _ _ h1
    exact ⟨g1, hg, by rw [hst rfl]⟩
  · obtain ⟨g1, hg, _, _, _, _, hdyn, _⟩ := h.1 _ _ h2
    exact ⟨g1, hg, (hdyn rfl).2 (Or.inr (by decide))⟩

/-! ## Node transformation -/

/-- A Go string has positive length exactly when it is not the empty string. -/
theorem length_pos_iff_ne_empty (s : String) : s.length > 0 ↔ s ≠ "" := by
  cases s with
  | mk l =>
    cases l with
    | nil => simp [String.length]
    | cons c cs =>
      simp [String.length]
      intro h
      have h2 := congrArg String.data h
      simp at h2

/-- A pod is well formed exactly when both `Must...` helpers find what they
look for. -/
theorem hasPaxosPort_iff (conv : Convention) (pod : Pod) :
    HasPaxosPort conv pod = true ↔
      ∃ container port,
        MustGetContainerFromPod pod conv.ContainerEngine = some container ∧
        MustGetPortFromContainer container "paxos" = some port := by
  unfold HasPaxosPort
  cases hc : MustGetContainerFromPod pod conv.ContainerEngine with
  | none => simp
  | some container =>
    cases hp : MustGetPortFromContainer container "paxos" with
    | none => simp [hp]
    | some port => simp [hp]

/-- The loop body succeeds on a well-formed pod. -/
theorem podIntoNode_isSome (conv : Convention) (pod : Pod) (h : HasPaxosPort conv pod = true) :
    ∃ node, podIntoNode conv pod = some node := by
  obtain ⟨container, port, hc, hp⟩ := (hasPaxosPort_iff conv pod).mp h
  unfold podIntoNode
  simp only [hc, hp]
  split <;> exact ⟨_, rfl⟩

/-- The loop body panics on a pod that is not well formed. -/
theorem podIntoNode_eq_none (conv : Convention) (pod : Pod) (h : HasPaxosPort conv pod = false) :
    podIntoNode conv pod = none := by
  have h : ¬ ∃ container port,
      MustGetContainerFromPod pod conv.ContainerEngine = some container ∧
      MustGetPortFromContainer container "paxos" = some port := by
    rw [← hasPaxosPort_iff]; simp [h]
  unfold podIntoNode
  cases hc : MustGetContainerFromPod pod conv.ContainerEngine with
  | none => rfl
  | some container =>
    cases hp : MustGetPortFromContainer container "paxos" with
    | none => simp [hp]
    | some port => exact absurd ⟨container, port, hc, hp⟩ h

/-- The node the loop body builds has the fields the source assigns. -/
theorem podIntoNode_fields (conv : Convention) (pod : Pod) (node : Node)
    (h : podIntoNode conv pod = some node) :
    node.Pod = pod.Name ∧
    node.Host = pod.Status.PodIP ∧
    node.HostName = pod.Spec.NodeName ∧
    (∃ container port,
      MustGetContainerFromPod pod conv.ContainerEngine = some container ∧
      MustGetPortFromContainer container "paxos" = some port ∧
      node.Port = port.ContainerPort) ∧
    node.Role = mapIndex pod.Labels conv.LabelNodeRole ∧
    node.Domain =
      (if pod.Spec.Subdomain = "" then "" else pod.Name ++ "." ++ pod.Spec.Subdomain) := by
  unfold podIntoNode at h
  cases hc : MustGetContainerFromPod pod conv.ContainerEngine with
  | none => simp [hc] at h
  | some container =>
    cases hp : MustGetPortFromContainer container "paxos" with
    | none => simp [hc, hp] at h
    | some port =>
      simp only [hc, hp] at h
      by_cases hs : pod.Spec.Subdomain = ""
      · have hl : ¬ pod.Spec.Subdomain.length > 0 := by
          rw [length_pos_iff_ne_empty]; simp [hs]
        rw [if_neg hl] at h
        injection h with h
        subst h
        exact ⟨rfl, rfl, rfl, ⟨container, port, rfl, hp, rfl⟩, rfl, by simp [hs]⟩
      · have hl : pod.Spec.Subdomain.length > 0 := by
          rw [length_pos_iff_ne_empty]; exact hs
        rw [if_pos hl] at h
        injection h with h
        subst h
        exact ⟨rfl, rfl, rfl, ⟨container, port, rfl, hp, rfl⟩, rfl, by simp [hs]⟩

/-- The loop started from `acc` yields `acc` followed by what the loop started
from the empty slice yields. -/
theorem transform_loop_acc (conv : Convention) (pods : List Pod) (acc : List Node) :
    pods.foldlM
        (fun nodes pod =>
          match podIntoNode conv pod with
          | none => none
          | some node => some (nodes ++ [node]))
        acc =
      (transformPodsIntoNodes conv "" pods).map (fun nodes => acc ++ nodes) := by
  unfold transformPodsIntoNodes
  induction pods generalizing acc with
  | nil => simp
  | cons pod rest ih =>
    simp only [List.foldlM_cons]
    cases hp : podIntoNode conv pod with
    | none => simp
    | some node =>
      simp only [Option.bind_eq_bind, Option.some_bind]
      rw [ih (acc ++ [node]), ih ([] ++ [node])]
      cases (List.foldlM
        (fun nodes pod =>
          match podIntoNode conv pod with
          | none => none
          | some node => some (nodes ++ [node])) [] rest) <;> simp

/-- The namespace argument is not read. -/
theorem transformPodsIntoNodes_namespace (conv : Convention) (ns1 ns2 : String)
    (pods : List Pod) :
    transformPodsIntoNodes conv ns1 pods = transformPodsIntoNodes conv ns2 pods := rfl

/-- The transformation of the empty pod list is the empty node list. -/
theorem transformPodsIntoNodes_nil (conv : Convention) (ns : String) :
    transformPodsIntoNodes conv ns [] = some [] := rfl

/-- The transformation of `pod :: rest`: the node of `pod` in front of the
transformation of `rest`, a panic if either panics. -/
theorem transformPodsIntoNodes_cons (conv : Convention) (ns : String) (pod : Pod)
    (rest : List Pod) :
    transformPodsIntoNodes conv ns (pod :: rest) =
      match podIntoNode conv pod with
      | none => none
      | some node => (transformPodsIntoNodes conv ns rest).map (fun nodes => node :: nodes) := by
  rw [transformPodsIntoNodes_namespace conv ns "" rest]
  show List.foldlM _ [] (pod :: rest) = _
  simp only [List.foldlM_cons]
  cases hp : podIntoNode conv pod with
  | none => simp
  | some node =>
    simp only [Option.bind_eq_bind, Option.some_bind]
    rw [transform_loop_acc]
    simp

/-- The transformation succeeds exactly on lists of well-formed pods, and then
its i-th node is the node built from the i-th pod. -/
theorem transformPodsIntoNodes_spec (conv : Convention) (ns : String) (pods : List Pod)
    (h : ∀ pod ∈ pods, HasPaxosPort conv pod = true) :
    ∃ nodes : List Node, transformPodsIntoNodes conv ns pods = some nodes ∧
      nodes.length = pods.length ∧
      ∀ (i : Nat) (pod : Pod), pods[i]? = some pod →
        ∃ node : Node, nodes[i]? = some node ∧ podIntoNode conv pod = some node := by
  induction pods with
  | nil => exact ⟨[], rfl, rfl, by simp⟩
  | cons pod rest ih =>
    obtain ⟨nodes, hn, hlen, hidx⟩ := ih (fun p hp => h p (List.mem_cons_of_mem _ hp))
    obtain ⟨node, hnode⟩ := podIntoNode_isSome conv pod (h pod (List.mem_cons_self _ _))
    refine ⟨node :: nodes, ?_, by simp [hlen], ?_⟩
    · rw [transformPodsIntoNodes_cons, hnode, hn]; rfl
    · intro i p hp
      cases i with
      | zero =>
        simp at hp
        subst hp
        exact ⟨node, by simp, hnode⟩
      | succ j =>
        simp at hp
        obtain ⟨n, hn1, hn2⟩ := hidx j p hp
        exact ⟨n, by simpa using hn1, hn2⟩

/-- The transformation panics as soon as one pod is not well formed. -/
theorem transformPodsIntoNodes_eq_none (conv : Convention) (ns : String) (pods : List Pod)
    (pod : Pod) (hmem : pod ∈ pods) (h : HasPaxosPort conv pod = false) :
    transformPodsIntoNodes conv ns pods = none := by
  induction pods with
  | nil => simp at hmem
  | cons p rest ih =>
    rw [transformPodsIntoNodes_cons]
    cases hp : podIntoNode conv p with
    | none => rfl
    | some node =>
      rcases List.mem_cons.mp hmem with heq | hin
      · subst heq
        rw [podIntoNode_eq_none conv pod h] at hp
        cases hp
      · simp [ih hin]

/-- C9. Node transformation preserves pod listing order and maps fields
pointwise: on a pod list in which every pod has an engine container with a
port named `paxos`, `transformPodsIntoNodes` returns a node list of the same
length whose i-th node has the i-th pod's name, IP, node name, paxos container
port and role label, and the domain `<podName>.<subdomain>` when the subdomain
is not empty, the empty domain otherwise. -/
theorem transformPodsIntoNodes_pointwise (conv : Convention) (ns : String) (pods : List Pod)
    (h : ∀ pod ∈ pods, HasPaxosPort conv pod = true) :
    ∃ nodes : List Node, transformPodsIntoNodes conv ns pods = some nodes ∧
      nodes.length = pods.length ∧
      ∀ (i : Nat) (pod : Pod), pods[i]? = some pod →
        ∃ node : Node, nodes[i]? = some node ∧
          node.Pod = pod.Name ∧
          node.Host = pod.Status.PodIP ∧
          node.HostName = pod.Spec.NodeName ∧
          (∃ container port,
            MustGetContainerFromPod pod conv.ContainerEngine = some container ∧
            MustGetPortFromContainer container "paxos" = some port ∧
            node.Port = port.ContainerPort) ∧
          node.Role = mapIndex pod.Labels conv.LabelNodeRole ∧
          node.Domain =
            (if pod.Spec.Subdomain = "" then "" else pod.Name ++ "." ++ pod.Spec.Subdomain) := by
  obtain ⟨nodes, hn, hlen, hidx⟩ := transformPodsIntoNodes_spec conv ns pods h
  refine ⟨nodes, hn, hlen, ?_⟩
  intro i pod hp
  obtain ⟨node, hnode, hbuilt⟩ := hidx i pod hp
  exact ⟨node, hnode, podIntoNode_fields conv pod node hbuilt⟩

/-- C9, on the three scenario pods: they are well formed and the
transformation returns their three nodes, in listing order. -/
theorem transformPodsIntoNodes_pointwise_witness :
    (∀ pod ∈ scenarioPods, HasPaxosPort testConvention pod = true) ∧
    ∃ nodes : List Node,
      transformPodsIntoNodes testConvention "default" scenarioPods = some nodes ∧
      nodes.length = scenarioPods.length ∧
      nodes.map (fun node => (node.Pod, node.Host)) =
        [("p0", "ip0"), ("p1", "ip1"), ("p2", "ip2")] := by
  refine ⟨by decide, ?_⟩
  obtain ⟨nodes, hn, hlen, _⟩ :=
    transformPodsIntoNodes_pointwise testConvention "default" scenarioPods (by decide)
  refine ⟨nodes, hn, hlen, ?_⟩
  have hval : transformPodsIntoNodes testConvention "default" scenarioPods =
      some [⟨"p0", "ip0", "host-p0", 11306, "candidate", ""⟩,
            ⟨"p1", "ip1", "host-p1", 11306, "voter", ""⟩,
            ⟨"p2", "ip2", "host-p2", 11306, "voter", ""⟩] := by decide
  rw [hval] at hn
  injection hn with hn
  subst hn
  decide

/-! ## Headless addressing -/

/-- The headless transformation of `pod :: rest`. -/
theorem transformHeadless_cons (conv : Convention) (ns : String) (pod : Pod)
    (rest : List Pod) :
    transformPodsIntoNodesWithHeadlessServices conv ns (pod :: rest) =
      match podIntoNode conv pod with
      | none => none
      | some node =>
        (transformPodsIntoNodesWithHeadlessServices conv ns rest).map (fun nodes =>
          { node with Host := conv.NewHeadlessServiceName node.Pod } :: nodes) := by
  unfold transformPodsIntoNodesWithHeadlessServices
  rw [transformPodsIntoNodes_cons]
  cases hp : podIntoNode conv pod with
  | none => rfl
  | some node =>
    cases ht : transformPodsIntoNodes conv ns rest with
    | none => simp
    | some nodes => simp

/-- Forgetting the IP of a pod only changes the host of its node. -/
theorem podIntoNode_withoutPodIP (conv : Convention) (pod : Pod) :
    podIntoNode conv (withoutPodIP pod) =
      (podIntoNode conv pod).map (fun node => { node with Host := "" }) := by
  unfold podIntoNode withoutPodIP MustGetContainerFromPod
  cases hc : List.find? (fun c => c.Name == conv.ContainerEngine) pod.Spec.Containers with
  | none => simp
  | some container =>
    cases hp : MustGetPortFromContainer container "paxos" with
    | none => simp [hp]
    | some port =>
      simp only [hp]
      split <;> simp

/-- The headless transformation does not read the pod IPs. -/
theorem transformHeadless_withoutPodIP (conv : Convention) (ns : String) (pods : List Pod) :
    transformPodsIntoNodesWithHeadlessServices conv ns (pods.map withoutPodIP) =
      transformPodsIntoNodesWithHeadlessServices conv ns pods := by
  induction pods with
  | nil => rfl
  | cons pod rest ih =>
    rw [List.map_cons, transformHeadless_cons, transformHeadless_cons, ih,
      podIntoNode_withoutPodIP]
    cases hp : podIntoNode conv pod with
    | none => rfl
    | some node => rfl

/-- C7. Headless rewrite toggle: on a pod list in which every pod has a paxos
port, both transformations return node lists of the length of the pod list;
at every index the plain node's host is the pod's IP, the headless node's host
is `NewHeadlessServiceName` of the pod name, and the two nodes agree on pod,
hostName, port, role and domain; and any pod list that differs from the given
one only in pod IPs has the same headless transformation. -/
theorem headless_rewrite_toggle (conv : Convention) (ns : String) (pods : List Pod)
    (h : ∀ pod ∈ pods, HasPaxosPort conv pod = true) :
    ∃ plain headless : List Node,
      transformPodsIntoNodes conv ns pods = some plain ∧
      transformPodsIntoNodesWithHeadlessServices conv ns pods = some headless ∧
      plain.length = pods.length ∧ headless.length = pods.length ∧
      (∀ (i : Nat) (pod : Pod), pods[i]? = some pod →
        ∃ n m : Node, plain[i]? = some n ∧ headless[i]? = some m ∧
          n.Host = pod.Status.PodIP ∧
          m.Host = conv.NewHeadlessServiceName pod.Name ∧
          m.Pod = n.Pod ∧ m.HostName = n.HostName ∧ m.Port = n.Port ∧
          m.Role = n.Role ∧ m.Domain = n.Domain) ∧
      (∀ pods2 : List Pod, pods2.map withoutPodIP = pods.map withoutPodIP →
        transformPodsIntoNodesWithHeadlessServices conv ns pods2 = some headless) := by
  obtain ⟨plain, hn, hlen, hidx⟩ := transformPodsIntoNodes_spec conv ns pods h
  refine ⟨plain,
    plain.map (fun node => { node with Host := conv.NewHeadlessServiceName node.Pod }),
    hn, ?_, hlen, by simp [hlen], ?_, ?_⟩
  · unfold transformPodsIntoNodesWithHeadlessServices
    rw [hn]
  · intro i pod hp
    obtain ⟨n, hni, hbuilt⟩ := hidx i pod hp
    obtain ⟨hpod, hhost, _⟩ := podIntoNode_fields conv pod n hbuilt
    refine ⟨n, { n with Host := conv.NewHeadlessServiceName n.Pod }, hni, ?_,
      hhost, by simp [hpod], rfl, rfl, rfl, rfl, rfl⟩
    simp [List.getElem?_map, hni]
  · intro pods2 h2
    rw [← transformHeadless_withoutPodIP conv ns pods2, h2,
      transformHeadless_withoutPodIP conv ns pods]
    unfold transformPodsIntoNodesWithHeadlessServices
    rw [hn]

/-- C7, on the scenario pods and on the same pods with other IPs: the headless
hosts are the pod names whatever the IPs are. -/
theorem headless_rewrite_toggle_witness :
    (∀ pod ∈ scenarioPods, HasPaxosPort testConvention pod = true) ∧
    transformPodsIntoNodesWithHeadlessServices testConvention "default"
        [testPod "p0" "10.0.0.7" "candidate", testPod "p1" "10.0.0.8" "voter",
         testPod "p2" "10.0.0.9" "voter"] =
      transformPodsIntoNodesWithHeadlessServices testConvention "default" scenarioPods ∧
    (transformPodsIntoNodesWithHeadlessServices testConvention "default" scenarioPods).map
        (fun nodes => nodes.map (fun node => node.Host)) = some ["p0", "p1", "p2"] := by
  obtain ⟨plain, headless, _, hh, _, _, _, hind⟩ :=
    headless_rewrite_toggle testConvention "default" scenarioPods (by decide)
  refine ⟨by decide, ?_, by decide⟩
  rw [hh]
  exact hind _ (by decide)

/-! ## UnblockBootstrap -/

/-- Reading back the key just assigned gives the assigned value. -/
theorem mapIndex_mapAssign (m : List (String × String)) (k v : String) :
    mapIndex (mapAssign m k v) k = v := by
  simp [mapIndex, mapAssign, List.lookup]

/-- The transformation the step selects through the feature gate. -/
theorem selected_transform_length (rc : Context) (pods : List Pod) (nodes : List Node)
    (h : (if rc.EnableXStoreWithHeadlessService.Enabled then
            transformPodsIntoNodesWithHeadlessServices rc.conv rc.Namespace pods
          else transformPodsIntoNodes rc.conv rc.Namespace pods) = some nodes) :
    nodes.length = pods.length := by
  have key : ∀ l, transformPodsIntoNodes rc.conv rc.Namespace pods = some l →
      l.length = pods.length := by
    intro l hl
    have hwf : ∀ pod ∈ pods, HasPaxosPort rc.conv pod = true := by
      intro pod hmem
      by_contra hne
      have hf : HasPaxosPort rc.conv pod = false := by simpa using hne
      rw [transformPodsIntoNodes_eq_none rc.conv rc.Namespace pods pod hmem hf] at hl
      cases hl
    obtain ⟨l2, h2, hlen, _⟩ := transformPodsIntoNodes_spec rc.conv rc.Namespace pods hwf
    rw [h2] at hl
    injection hl with hl
    rw [← hl, hlen]
  by_cases hg : rc.EnableXStoreWithHeadlessService.Enabled = true
  · rw [if_pos hg] at h
    unfold transformPodsIntoNodesWithHeadlessServices at h
    cases ht : transformPodsIntoNodes rc.conv rc.Namespace pods with
    | none => simp [ht] at h
    | some l =>
      simp only [ht, Option.some.injEq] at h
      rw [← h, List.length_map]
      exact key l ht
  · rw [if_neg hg] at h
    exact key nodes h

/-- The transformation the step selects succeeds on well-formed pods. -/
theorem selected_transform_isSome (rc : Context) (pods : List Pod)
    (hwf : ∀ pod ∈ pods, HasPaxosPort rc.conv pod = true) :
    ∃ nodes : List Node,
      (if rc.EnableXStoreWithHeadlessService.Enabled then
        transformPodsIntoNodesWithHeadlessServices rc.conv rc.Namespace pods
      else transformPodsIntoNodes rc.conv rc.Namespace pods) = some nodes := by
  obtain ⟨plain, hp, _⟩ := transformPodsIntoNodes_spec rc.conv rc.Namespace pods hwf
  by_cases hg : rc.EnableXStoreWithHeadlessService.Enabled = true
  · refine ⟨plain.map (fun node =>
      { node with Host := rc.conv.NewHeadlessServiceName node.Pod }), ?_⟩
    rw [if_pos hg]
    unfold transformPodsIntoNodesWithHeadlessServices
    rw [hp]
  · exact ⟨plain, by rw [if_neg hg, hp]⟩

/-- The branch of `UnblockBootstrap` where getting the config map fails. -/
theorem UnblockBootstrap_get_error (rc : Context) (persisted : ConfigMap) (err : Err)
    (hg : rc.getXStoreConfigMapErr = some err) :
    UnblockBootstrap rc persisted =
      { result := some (.Error err "Unable to get shared config map." [])
        persisted := persisted
        trace := [.GetXStoreConfigMap] } := by
  unfold UnblockBootstrap
  simp [hg]

/-- The branch of `UnblockBootstrap` where parsing the channel fails. -/
theorem UnblockBootstrap_parse_error (rc : Context) (persisted : ConfigMap) (err : Err)
    (hg : rc.getXStoreConfigMapErr = none)
    (hp : parseChannelFromConfigMap rc persisted = .error err) :
    UnblockBootstrap rc persisted =
      { result := some (.Error err "Unable to parse shared channel from config map." [])
        persisted := persisted
        trace := [.GetXStoreConfigMap] } := by
  unfold UnblockBootstrap
  simp [hg, hp]

/-- The branch of `UnblockBootstrap` where the channel is already unblocked. -/
theorem UnblockBootstrap_unblocked (rc : Context) (persisted : ConfigMap)
    (sharedChannel : SharedChannel)
    (hg : rc.getXStoreConfigMapErr = none)
    (hp : parseChannelFromConfigMap rc persisted = .ok sharedChannel)
    (hb : sharedChannel.IsBlocked = false) :
    UnblockBootstrap rc persisted =
      { result := some .Pass
        persisted := persisted
        trace := [.GetXStoreConfigMap] } := by
  unfold UnblockBootstrap
  simp [hg, hp, hb]

/-- The branch of `UnblockBootstrap` where fetching the pods fails. -/
theorem UnblockBootstrap_pods_error (rc : Context) (persisted : ConfigMap)
    (sharedChannel : SharedChannel) (err : Err)
    (hg : rc.getXStoreConfigMapErr = none)
    (hp : parseChannelFromConfigMap rc persisted = .ok sharedChannel)
    (hb : sharedChannel.IsBlocked = true)
    (hpods : rc.GetXStorePods = .error err) :
    UnblockBootstrap rc persisted =
      { result := some (.Error err "Unable to get pods." [])
        persisted := persisted
        trace := [.GetXStoreConfigMap, .GetXStorePods] } := by
  unfold UnblockBootstrap
  simp [hg, hp, hb, hpods]

/-- The branch of `UnblockBootstrap` where the transformation panics. -/
theorem UnblockBootstrap_panic (rc : Context) (persisted : ConfigMap)
    (sharedChannel : SharedChannel) (pods : List Pod)
    (hg : rc.getXStoreConfigMapErr = none)
    (hp : parseChannelFromConfigMap rc persisted = .ok sharedChannel)
    (hb : sharedChannel.IsBlocked = true)
    (hpods : rc.GetXStorePods = .ok pods)
    (ht : (if rc.EnableXStoreWithHeadlessService.Enabled then
            transformPodsIntoNodesWithHeadlessServices rc.conv rc.Namespace pods
          else transformPodsIntoNodes rc.conv rc.Namespace pods) = none) :
    UnblockBootstrap rc persisted =
      { result := none
        persisted := persisted
        trace := [.GetXStoreConfigMap, .GetXStorePods] } := by
  unfold UnblockBootstrap
  simp [hg, hp, hb, hpods, ht]

/-- The branch of `UnblockBootstrap` where the update fails. -/
theorem UnblockBootstrap_update_error (rc : Context) (persisted : ConfigMap)
    (sharedChannel : SharedChannel) (pods : List Pod) (nodes : List Node) (err : Err)
    (hg : rc.getXStoreConfigMapErr = none)
    (hp : parseChannelFromConfigMap rc persisted = .ok sharedChannel)
    (hb : sharedChannel.IsBlocked = true)
    (hpods : rc.GetXStorePods = .ok pods)
    (ht : (if rc.EnableXStoreWithHeadlessService.Enabled then
            transformPodsIntoNodesWithHeadlessServices rc.conv rc.Namespace pods
          else transformPodsIntoNodes rc.conv rc.Namespace pods) = some nodes)
    (hu : rc.updateErr = some err) :
    UnblockBootstrap rc persisted =
      { result := some (.Error err "Unable to update shared config map." [])
        persisted := persisted
        trace := [.GetXStoreConfigMap, .GetXStorePods,
          .Update
            { Data := mapAssign persisted.Data rc.conv.SharedChannelKey
                (rc.codec.String { Blocked := false, Nodes := nodes }) } false] } := by
  unfold UnblockBootstrap
  simp [hg, hp, hb, hpods, ht, hu, SharedChannel.Unblock]

/-- The branch of `UnblockBootstrap` where everything succeeds. -/
theorem UnblockBootstrap_continue (rc : Context) (persisted : ConfigMap)
    (sharedChannel : SharedChannel) (pods : List Pod) (nodes : List Node)
    (hg : rc.getXStoreConfigMapErr = none)
    (hp : parseChannelFromConfigMap rc persisted = .ok sharedChannel)
    (hb : sharedChannel.IsBlocked = true)
    (hpods : rc.GetXStorePods = .ok pods)
    (ht : (if rc.EnableXStoreWithHeadlessService.Enabled then
            transformPodsIntoNodesWithHeadlessServices rc.conv rc.Namespace pods
          else transformPodsIntoNodes rc.conv rc.Namespace pods) = some nodes)
    (hu : rc.updateErr = none) :
    UnblockBootstrap rc persisted =
      { result := some (.Continue "Unblock via shared channel.")
        persisted :=
          { Data := mapAssign persisted.Data rc.conv.SharedChannelKey
              (rc.codec.String { Blocked := false, Nodes := nodes }) }
        trace := [.GetXStoreConfigMap, .GetXStorePods,
          .Update
            { Data := mapAssign persisted.Data rc.conv.SharedChannelKey
                (rc.codec.String { Blocked := false, Nodes := nodes }) } true] } := by
  unfold UnblockBootstrap
  simp [hg, hp, hb, hpods, ht, hu, SharedChannel.Unblock]

/-- Every execution of `UnblockBootstrap` either writes nothing and leaves the
persisted config map alone, or fetched pods, transformed them into nodes, and
wrote once the config map with the unblocked channel carrying those nodes. -/
theorem UnblockBootstrap_writes (rc : Context) (persisted : ConfigMap) :
    (writes (UnblockBootstrap rc persisted).trace = [] ∧
      (UnblockBootstrap rc persisted).persisted = persisted) ∨
    (∃ (pods : List Pod) (nodes : List Node),
      rc.GetXStorePods = .ok pods ∧
      (if rc.EnableXStoreWithHeadlessService.Enabled then
          transformPodsIntoNodesWithHeadlessServices rc.conv rc.Namespace pods
        else transformPodsIntoNodes rc.conv rc.Namespace pods) = some nodes ∧
      writes (UnblockBootstrap rc persisted).trace =
        [{ Data := mapAssign persisted.Data rc.conv.SharedChannelKey
            (rc.codec.String { Blocked := false, Nodes := nodes }) }] ∧
      (UnblockBootstrap rc persisted).persisted =
        { Data := mapAssign persisted.Data rc.conv.SharedChannelKey
            (rc.codec.String { Blocked := false, Nodes := nodes }) }) := by
  cases hg : rc.getXStoreConfigMapErr with
  | some err => left; rw [UnblockBootstrap_get_error rc persisted err hg]; simp [writes]
  | none =>
    cases hp : parseChannelFromConfigMap rc persisted with
    | error err =>
      left; rw [UnblockBootstrap_parse_error rc persisted err hg hp]; simp [writes]
    | ok sharedChannel =>
      cases hb : sharedChannel.IsBlocked with
      | false =>
        left; rw [UnblockBootstrap_unblocked rc persisted sharedChannel hg hp hb]
        simp [writes]
      | true =>
        cases hpods : rc.GetXStorePods with
        | error err =>
          left; rw [UnblockBootstrap_pods_error rc persisted sharedChannel err hg hp hb hpods]
          simp [writes]
        | ok pods =>
          cases ht : (if rc.EnableXStoreWithHeadlessService.Enabled then
              transformPodsIntoNodesWithHeadlessServices rc.conv rc.Namespace pods
            else transformPodsIntoNodes rc.conv rc.Namespace pods) with
          | none =>
            left; rw [UnblockBootstrap_panic rc persisted sharedChannel pods hg hp hb hpods ht]
            simp [writes]
          | some nodes =>
            cases hu : rc.updateErr with
            | some err =>
              left
              rw [UnblockBootstrap_update_error rc persisted sharedChannel pods nodes err
                hg hp hb hpods ht hu]
              simp [writes]
            | none =>
              right
              rw [UnblockBootstrap_continue rc persisted sharedChannel pods nodes
                hg hp hb hpods ht hu]
              exact ⟨pods, nodes, rfl, ht, by simp [writes], rfl⟩

/-- C1. Atomic publication: in every execution of `UnblockBootstrap` there is
at most one successful write; a written config map is the persisted one with
the channel key set to the serialisation of the channel `blocked=false` with
nodes equal to the selected transformation of the fetched pods (so it has as
many nodes as there are fetched pods, none only if there are no pods), and it
is what is persisted afterwards; without a write the persisted config map is
unchanged; and when getting the config map, parsing it or fetching the pods
fails, nothing is written and the result is the `Error` of that call. -/
theorem UnblockBootstrap_atomic_publication (rc : Context) (persisted : ConfigMap) :
    (writes (UnblockBootstrap rc persisted).trace).length ≤ 1 ∧
    (∀ cm ∈ writes (UnblockBootstrap rc persisted).trace,
      ∃ (pods : List Pod) (nodes : List Node),
        rc.GetXStorePods = .ok pods ∧
        (if rc.EnableXStoreWithHeadlessService.Enabled then
            transformPodsIntoNodesWithHeadlessServices rc.conv rc.Namespace pods
          else transformPodsIntoNodes rc.conv rc.Namespace pods) = some nodes ∧
        cm.Data = mapAssign persisted.Data rc.conv.SharedChannelKey
          (rc.codec.String { Blocked := false, Nodes := nodes }) ∧
        channelString rc cm = rc.codec.String { Blocked := false, Nodes := nodes } ∧
        (UnblockBootstrap rc persisted).persisted = cm ∧
        nodes.length = pods.length ∧
        (pods ≠ [] → nodes ≠ [])) ∧
    (writes (UnblockBootstrap rc persisted).trace = [] →
      (UnblockBootstrap rc persisted).persisted = persisted) ∧
    (∀ err, rc.getXStoreConfigMapErr = some err →
      (UnblockBootstrap rc persisted).result =
          some (.Error err "Unable to get shared config map." []) ∧
        writes (UnblockBootstrap rc persisted).trace = [] ∧
        (UnblockBootstrap rc persisted).persisted = persisted) ∧
    (∀ err, rc.getXStoreConfigMapErr = none →
      parseChannelFromConfigMap rc persisted = .error err →
      (UnblockBootstrap rc persisted).result =
          some (.Error err "Unable to parse shared channel from config map." []) ∧
        writes (UnblockBootstrap rc persisted).trace = [] ∧
        (UnblockBootstrap rc persisted).persisted = persisted) ∧
    (∀ sharedChannel err, rc.getXStoreConfigMapErr = none →
      parseChannelFromConfigMap rc persisted = .ok sharedChannel →
      sharedChannel.IsBlocked = true →
      rc.GetXStorePods = .error err →
      (UnblockBootstrap rc persisted).result = some (.Error err "Unable to get pods." []) ∧
        writes (UnblockBootstrap rc persisted).trace = [] ∧
        (UnblockBootstrap rc persisted).persisted = persisted) := by
  refine ⟨?_, ?_, ?_, ?_, ?_, ?_⟩
  · rcases UnblockBootstrap_writes rc persisted with ⟨hw, _⟩ | ⟨pods, nodes, _, _, hw, _⟩
    · rw [hw]; simp
    · rw [hw]; simp
  · intro cm hcm
    rcases UnblockBootstrap_writes rc persisted with ⟨hw, _⟩ | ⟨pods, nodes, hpods, ht, hw, hpers⟩
    · rw [hw] at hcm; simp at hcm
    · rw [hw, List.mem_singleton] at hcm
      have hlen := selected_transform_length rc pods nodes ht
      refine ⟨pods, nodes, hpods, ht, by rw [hcm], ?_, by rw [hpers, hcm], hlen, ?_⟩
      · rw [hcm]; exact mapIndex_mapAssign _ _ _
      · intro hne hnil
        rw [hnil] at hlen
        exact hne (List.length_eq_zero.mp hlen.symm)
  · intro hnil
    rcases UnblockBootstrap_writes rc persisted with ⟨_, hpers⟩ | ⟨pods, nodes, _, _, hw, _⟩
    · exact hpers
    · rw [hw] at hnil; simp at hnil
  · intro err hg
    rw [UnblockBootstrap_get_error rc persisted err hg]
    simp [writes]
  · intro err hg hp
    rw [UnblockBootstrap_parse_error rc persisted err hg hp]
    simp [writes]
  · intro sharedChannel err hg hp hb hpods
    rw [UnblockBootstrap_pods_error rc persisted sharedChannel err hg hp hb hpods]
    simp [writes]

/-- C1, on the end-to-end scenario (three well-formed pods, headless off,
channel blocked): the only write carries the unblocked channel with the three
nodes, and it is what is persisted. -/
theorem UnblockBootstrap_atomic_publication_witness :
    writes (UnblockBootstrap (testContext scenarioPods false none) blockedConfigMap).trace =
      [{ Data := [("shared", "o:p0,p1,p2")] }] ∧
    ∃ (pods : List Pod) (nodes : List Node),
      (testContext scenarioPods false none).GetXStorePods = .ok pods ∧
      channelString (testContext scenarioPods false none) { Data := [("shared", "o:p0,p1,p2")] } =
        testString { Blocked := false, Nodes := nodes } ∧
      (UnblockBootstrap (testContext scenarioPods false none) blockedConfigMap).persisted =
        { Data := [("shared", "o:p0,p1,p2")] } ∧
      nodes.length = pods.length := by
  refine ⟨by decide, ?_⟩
  obtain ⟨pods, nodes, hpods, _, _, hstr, hpers, hlen, _⟩ :=
    (UnblockBootstrap_atomic_publication (testContext scenarioPods false none)
      blockedConfigMap).2.1 { Data := [("shared", "o:p0,p1,p2")] } (by decide)
  exact ⟨pods, nodes, hpods, hstr, hpers, hlen⟩

/-- C2. Idempotency of the bootstrap step. First: when the config map is
obtained and its channel parses to one with `blocked=false`, `UnblockBootstrap`
returns `Pass`, its only external call is the read of the config map (no pod
fetch, no update), and the persisted config map is unchanged. Second: after a
run of `UnblockBootstrap` under `rc` that returned `Continue` or `Pass`, a
second run under any `rc2` with the same names and serialisation that obtains
the config map returns `Pass` and leaves persisted what the first run left,
provided an unblocked channel's string parses to an unblocked channel. -/
theorem UnblockBootstrap_idempotent (rc rc2 : Context) (persisted : ConfigMap) :
    (∀ sharedChannel, rc.getXStoreConfigMapErr = none →
      parseChannelFromConfigMap rc persisted = .ok sharedChannel →
      sharedChannel.IsBlocked = false →
      (UnblockBootstrap rc persisted).result = some .Pass ∧
        (UnblockBootstrap rc persisted).trace = [.GetXStoreConfigMap] ∧
        podFetches (UnblockBootstrap rc persisted).trace = 0 ∧
        writes (UnblockBootstrap rc persisted).trace = [] ∧
        (UnblockBootstrap rc persisted).persisted = persisted) ∧
    (rc2.conv = rc.conv → rc2.codec = rc.codec →
      (∀ c : SharedChannel, c.Blocked = false →
        ∃ c1 : SharedChannel, rc.codec.Load (rc.codec.String c) = .ok c1 ∧ c1.Blocked = false) →
      rc2.getXStoreConfigMapErr = none →
      ((∃ msg, (UnblockBootstrap rc persisted).result = some (.Continue msg)) ∨
        (UnblockBootstrap rc persisted).result = some .Pass) →
      (UnblockBootstrap rc2 (UnblockBootstrap rc persisted).persisted).result = some .Pass ∧
        (UnblockBootstrap rc2 (UnblockBootstrap rc persisted).persisted).trace =
          [.GetXStoreConfigMap] ∧
        podFetches (UnblockBootstrap rc2 (UnblockBootstrap rc persisted).persisted).trace = 0 ∧
        writes (UnblockBootstrap rc2 (UnblockBootstrap rc persisted).persisted).trace = [] ∧
        (UnblockBootstrap rc2 (UnblockBootstrap rc persisted).persisted).persisted =
          (UnblockBootstrap rc persisted).persisted) := by
  have first : ∀ (r : Context) (p : ConfigMap) (sharedChannel : SharedChannel),
      r.getXStoreConfigMapErr = none →
      parseChannelFromConfigMap r p = .ok sharedChannel →
      sharedChannel.IsBlocked = false →
      (UnblockBootstrap r p).result = some .Pass ∧
        (UnblockBootstrap r p).trace = [.GetXStoreConfigMap] ∧
        podFetches (UnblockBootstrap r p).trace = 0 ∧
        writes (UnblockBootstrap r p).trace = [] ∧
        (UnblockBootstrap r p).persisted = p := by
    intro r p sharedChannel hg hp hb
    rw [UnblockBootstrap_unblocked r p sharedChannel hg hp hb]
    simp [writes, podFetches]
  refine ⟨first rc persisted, ?_⟩
  intro hconv hcodec hrt hg2 hres
  have hparse2 : ∀ p, parseChannelFromConfigMap rc2 p = parseChannelFromConfigMap rc p := by
    intro p
    unfold parseChannelFromConfigMap
    rw [hconv, hcodec]
  cases hg : rc.getXStoreConfigMapErr with
  | some err =>
    rw [UnblockBootstrap_get_error rc persisted err hg] at hres
    simp at hres
  | none =>
    cases hp : parseChannelFromConfigMap rc persisted with
    | error err =>
      rw [UnblockBootstrap_parse_error rc persisted err hg hp] at hres
      simp at hres
    | ok sharedChannel =>
      cases hb : sharedChannel.IsBlocked with
      | false =>
        rw [UnblockBootstrap_unblocked rc persisted sharedChannel hg hp hb]
        exact first rc2 persisted sharedChannel hg2 (by rw [hparse2, hp]) hb
      | true =>
        cases hpods : rc.GetXStorePods with
        | error err =>
          rw [UnblockBootstrap_pods_error rc persisted sharedChannel err hg hp hb hpods] at hres
          simp at hres
        | ok pods =>
          cases ht : (if rc.EnableXStoreWithHeadlessService.Enabled then
              transformPodsIntoNodesWithHeadlessServices rc.conv rc.Namespace pods
            else transformPodsIntoNodes rc.conv rc.Namespace pods) with
          | none =>
            rw [UnblockBootstrap_panic rc persisted sharedChannel pods hg hp hb hpods ht] at hres
            simp at hres
          | some nodes =>
            cases hu : rc.updateErr with
            | some err =>
              rw [UnblockBootstrap_update_error rc persisted sharedChannel pods nodes err
                hg hp hb hpods ht hu] at hres
              simp at hres
            | none =>
              rw [UnblockBootstrap_continue rc persisted sharedChannel pods nodes
                hg hp hb hpods ht hu]
              obtain ⟨c1, hc1, hb1⟩ := hrt { Blocked := false, Nodes := nodes } rfl
              refine first rc2 _ c1 hg2 ?_ hb1
              rw [hparse2]
              unfold parseChannelFromConfigMap
              simp only [mapIndex_mapAssign, hc1]

/-- C2, on the end-to-end scenario: the second run after the first successful
run returns `Pass` and keeps the persisted channel string of the first run. -/
theorem UnblockBootstrap_idempotent_witness :
    (UnblockBootstrap (testContext scenarioPods false none) blockedConfigMap).result =
      some (.Continue "Unblock via shared channel.") ∧
    (UnblockBootstrap (testContext scenarioPods false none) blockedConfigMap).persisted =
      { Data := [("shared", "o:p0,p1,p2")] } ∧
    (UnblockBootstrap (testContext [] false none)
        (UnblockBootstrap (testContext scenarioPods false none) blockedConfigMap).persisted).result =
      some .Pass ∧
    (UnblockBootstrap (testContext [] false none)
        (UnblockBootstrap (testContext scenarioPods false none) blockedConfigMap).persisted).persisted =
      (UnblockBootstrap (testContext scenarioPods false none) blockedConfigMap).persisted := by
  have h := (UnblockBootstrap_idempotent (testContext scenarioPods false none)
    (testContext [] false none) blockedConfigMap).2 rfl rfl
    (by
      intro c hc
      refine ⟨⟨false, []⟩, ?_, rfl⟩
      simp [testContext, testCodec, testLoad, testString, hc])
    rfl (Or.inl ⟨"Unblock via shared channel.", by decide⟩)
  exact ⟨by decide, by decide, h.1, h.2.2.2.2⟩

/-- C3 fails on a pod without an engine container: the pod fetch and the update
would succeed and the channel is blocked, yet the step panics, writes nothing
and leaves the channel blocked. -/
theorem UnblockBootstrap_success_counterexample :
    (testContext [brokenPod] false none).getXStoreConfigMapErr = none ∧
    parseChannelFromConfigMap (testContext [brokenPod] false none) blockedConfigMap =
      .ok { Blocked := true, Nodes := [] } ∧
    (testContext [brokenPod] false none).GetXStorePods = .ok [brokenPod] ∧
    (testContext [brokenPod] false none).updateErr = none ∧
    UnblockBootstrap (testContext [brokenPod] false none) blockedConfigMap =
      { result := none
        persisted := blockedConfigMap
        trace := [.GetXStoreConfigMap, .GetXStorePods] } ∧
    (UnblockBootstrap (testContext [brokenPod] false none) blockedConfigMap).result ≠
      some (.Continue "Unblock via shared channel.") := by
  refine ⟨rfl, rfl, rfl, rfl, by decide, by decide⟩

/-- C3, amended. Bootstrap success path: for every blocked shared channel and
every fetched pod list (the empty list included) in which each pod has an
engine container with a port named `paxos`, the selected transformation
(headless if the gate is enabled, plain otherwise) returns nodes; if the update
succeeds the step persists the channel `blocked=false` with those nodes in one
write and returns `Continue`; if the update fails it returns the `Error` of
the update and the persisted config map is unchanged. -/
theorem UnblockBootstrap_success (rc : Context) (persisted : ConfigMap)
    (sharedChannel : SharedChannel) (pods : List Pod)
    (hg : rc.getXStoreConfigMapErr = none)
    (hp : parseChannelFromConfigMap rc persisted = .ok sharedChannel)
    (hb : sharedChannel.IsBlocked = true)
    (hpods : rc.GetXStorePods = .ok pods)
    (hwf : ∀ pod ∈ pods, HasPaxosPort rc.conv pod = true) :
    ∃ nodes : List Node,
      (if rc.EnableXStoreWithHeadlessService.Enabled = true then
          transformPodsIntoNodesWithHeadlessServices rc.conv rc.Namespace pods = some nodes
        else transformPodsIntoNodes rc.conv rc.Namespace pods = some nodes) ∧
      (rc.updateErr = none →
        (UnblockBootstrap rc persisted).result = some (.Continue "Unblock via shared channel.") ∧
        (UnblockBootstrap rc persisted).persisted.Data =
          mapAssign persisted.Data rc.conv.SharedChannelKey
            (rc.codec.String { Blocked := false, Nodes := nodes }) ∧
        channelString rc (UnblockBootstrap rc persisted).persisted =
          rc.codec.String { Blocked := false, Nodes := nodes } ∧
        writes (UnblockBootstrap rc persisted).trace = [(UnblockBootstrap rc persisted).persisted]) ∧
      (∀ err, rc.updateErr = some err →
        (UnblockBootstrap rc persisted).result =
          some (.Error err "Unable to update shared config map." []) ∧
        (UnblockBootstrap rc persisted).persisted = persisted ∧
        writes (UnblockBootstrap rc persisted).trace = []) := by
  obtain ⟨nodes, ht⟩ := selected_transform_isSome rc pods hwf
  refine ⟨nodes, ?_, ?_, ?_⟩
  · by_cases hgate : rc.EnableXStoreWithHeadlessService.Enabled = true
    · rw [if_pos hgate] at ht ⊢; exact ht
    · rw [if_neg hgate] at ht ⊢; exact ht
  · intro hu
    rw [UnblockBootstrap_continue rc persisted sharedChannel pods nodes hg hp hb hpods ht hu]
    refine ⟨rfl, rfl, mapIndex_mapAssign _ _ _, by simp [writes]⟩
  · intro err hu
    rw [UnblockBootstrap_update_error rc persisted sharedChannel pods nodes err
      hg hp hb hpods ht hu]
    exact ⟨rfl, rfl, by simp [writes]⟩

/-- C3, amended, on the end-to-end scenario: pods `p0` (leader-eligible), `p1`
and `p2` (voters), headless off, channel `blocked=true` without nodes: the step
returns `Continue` and persists the unblocked channel with the nodes
`(p0, ip0)`, `(p1, ip1)`, `(p2, ip2)`. -/
theorem UnblockBootstrap_success_witness :
    ∃ nodes : List Node,
      transformPodsIntoNodes testConvention "default" scenarioPods = some nodes ∧
      nodes.map (fun node => (node.Pod, node.Host)) =
        [("p0", "ip0"), ("p1", "ip1"), ("p2", "ip2")] ∧
      (UnblockBootstrap (testContext scenarioPods false none) blockedConfigMap).result =
        some (.Continue "Unblock via shared channel.") ∧
      channelString (testContext scenarioPods false none)
          (UnblockBootstrap (testContext scenarioPods false none) blockedConfigMap).persisted =
        testString { Blocked := false, Nodes := nodes } := by
  obtain ⟨nodes, ht, hok, _⟩ :=
    UnblockBootstrap_success (testContext scenarioPods false none) blockedConfigMap
      { Blocked := true, Nodes := [] } scenarioPods rfl rfl rfl rfl (by decide)
  have ht2 : transformPodsIntoNodes testConvention "default" scenarioPods = some nodes := ht
  refine ⟨nodes, ht2, ?_, (hok rfl).1, (hok rfl).2.2.1⟩
  have hval : transformPodsIntoNodes testConvention "default" scenarioPods =
      some [⟨"p0", "ip0", "host-p0", 11306, "candidate", ""⟩,
            ⟨"p1", "ip1", "host-p1", 11306, "voter", ""⟩,
            ⟨"p2", "ip2", "host-p2", 11306, "voter", ""⟩] := by decide
  rw [hval] at ht2
  injection ht2 with ht2
  subst ht2
  decide

/-- C10 fails on the code: with the channel blocked and an empty fetched pod
set, the step returns `Continue`, not `Wait`, and persists the channel
unblocked with no nodes. -/
theorem UnblockBootstrap_no_wait_counterexample :
    parseChannelFromConfigMap (testContext [] false none) blockedConfigMap =
      .ok { Blocked := true, Nodes := [] } ∧
    (testContext [] false none).GetXStorePods = .ok [] ∧
    (UnblockBootstrap (testContext [] false none) blockedConfigMap).result =
      some (.Continue "Unblock via shared channel.") ∧
    (∀ msg, (UnblockBootstrap (testContext [] false none) blockedConfigMap).result ≠
      some (.Wait msg)) ∧
    channelString (testContext [] false none)
        (UnblockBootstrap (testContext [] false none) blockedConfigMap).persisted =
      testString { Blocked := false, Nodes := [] } := by
  refine ⟨rfl, rfl, by decide, ?_, by decide⟩
  intro msg
  have h : (UnblockBootstrap (testContext [] false none) blockedConfigMap).result =
      some (.Continue "Unblock via shared channel.") := by decide
  rw [h]
  simp

/-- `UnblockBootstrap` has no `Wait` outcome at all. -/
theorem UnblockBootstrap_never_waits (rc : Context) (persisted : ConfigMap) (msg : String) :
    (UnblockBootstrap rc persisted).result ≠ some (.Wait msg) := by
  cases hg : rc.getXStoreConfigMapErr with
  | some err => rw [UnblockBootstrap_get_error rc persisted err hg]; simp
  | none =>
    cases hp : parseChannelFromConfigMap rc persisted with
    | error err => rw [UnblockBootstrap_parse_error rc persisted err hg hp]; simp
    | ok sharedChannel =>
      cases hb : sharedChannel.IsBlocked with
      | false => rw [UnblockBootstrap_unblocked rc persisted sharedChannel hg hp hb]; simp
      | true =>
        cases hpods : rc.GetXStorePods with
        | error err =>
          rw [UnblockBootstrap_pods_error rc persisted sharedChannel err hg hp hb hpods]; simp
        | ok pods =>
          cases ht : (if rc.EnableXStoreWithHeadlessService.Enabled then
              transformPodsIntoNodesWithHeadlessServices rc.conv rc.Namespace pods
            else transformPodsIntoNodes rc.conv rc.Namespace pods) with
          | none =>
            rw [UnblockBootstrap_panic rc persisted sharedChannel pods hg hp hb hpods ht]; simp
          | some nodes =>
            cases hu : rc.updateErr with
            | some err =>
              rw [UnblockBootstrap_update_error rc persisted sharedChannel pods nodes err
                hg hp hb hpods ht hu]
              simp
            | none =>
              rw [UnblockBootstrap_continue rc persisted sharedChannel pods nodes
                hg hp hb hpods ht hu]
              simp

/-- C10, amended. With the shared channel still blocked and the fetched pod
set empty, `UnblockBootstrap` does not wait: it never returns `Wait`; if the
update succeeds it returns `Continue` and persists, in one write, the channel
`blocked=false` with the empty node list; if the update fails it returns the
`Error` of the update and the persisted config map is unchanged. -/
theorem UnblockBootstrap_empty_pods (rc : Context) (persisted : ConfigMap)
    (sharedChannel : SharedChannel)
    (hg : rc.getXStoreConfigMapErr = none)
    (hp : parseChannelFromConfigMap rc persisted = .ok sharedChannel)
    (hb : sharedChannel.IsBlocked = true)
    (hpods : rc.GetXStorePods = .ok []) :
    (∀ msg, (UnblockBootstrap rc persisted).result ≠ some (.Wait msg)) ∧
    (rc.updateErr = none →
      (UnblockBootstrap rc persisted).result = some (.Continue "Unblock via shared channel.") ∧
      channelString rc (UnblockBootstrap rc persisted).persisted =
        rc.codec.String { Blocked := false, Nodes := [] } ∧
      writes (UnblockBootstrap rc persisted).trace = [(UnblockBootstrap rc persisted).persisted]) ∧
    (∀ err, rc.updateErr = some err →
      (UnblockBootstrap rc persisted).result =
        some (.Error err "Unable to update shared config map." []) ∧
      (UnblockBootstrap rc persisted).persisted = persisted) := by
  have ht : (if rc.EnableXStoreWithHeadlessService.Enabled then
      transformPodsIntoNodesWithHeadlessServices rc.conv rc.Namespace []
    else transformPodsIntoNodes rc.conv rc.Namespace []) = some [] := by
    split <;> rfl
  refine ⟨UnblockBootstrap_never_waits rc persisted, ?_, ?_⟩
  · intro hu
    rw [UnblockBootstrap_continue rc persisted sharedChannel [] [] hg hp hb hpods ht hu]
    exact ⟨rfl, mapIndex_mapAssign _ _ _, by simp [writes]⟩
  · intro err hu
    rw [UnblockBootstrap_update_error rc persisted sharedChannel [] [] err hg hp hb hpods ht hu]
    exact ⟨rfl, rfl⟩

/-- C10, amended, on the blocked channel of the scenario with no pods. -/
theorem UnblockBootstrap_empty_pods_witness :
    (UnblockBootstrap (testContext [] true none) blockedConfigMap).result =
      some (.Continue "Unblock via shared channel.") ∧
    channelString (testContext [] true none)
        (UnblockBootstrap (testContext [] true none) blockedConfigMap).persisted = "o:" := by
  have h := (UnblockBootstrap_empty_pods (testContext [] true none) blockedConfigMap
    { Blocked := true, Nodes := [] } rfl rfl rfl rfl).2.1 rfl
  exact ⟨h.1, by decide⟩

/-! ## SetVoterElectionWeightToOne -/

/-- The branch of `SetVoterElectionWeightToOne` without voter pods. -/
theorem SetVoter_no_voters (rc : Context) (persisted : ConfigMap) (pods : List Pod)
    (hpods : rc.GetXStorePods = .ok pods)
    (hv : (FilterPodsBy pods (fun pod => IsPodRoleVoter rc.conv pod)).length = 0) :
    SetVoterElectionWeightToOne rc persisted =
      { result := some .Pass
        persisted := persisted
        trace := [.GetXStorePods] } := by
  unfold SetVoterElectionWeightToOne
  simp only [hpods, hv, if_true]

/-- The branch of `SetVoterElectionWeightToOne` where no leader is found. -/
theorem SetVoter_no_leader (rc : Context) (persisted : ConfigMap) (pods : List Pod)
    (hpods : rc.GetXStorePods = .ok pods)
    (hv : (FilterPodsBy pods (fun pod => IsPodRoleVoter rc.conv pod)).length ≠ 0)
    (hl : rc.TryGetXStoreLeaderPod = .ok none) :
    SetVoterElectionWeightToOne rc persisted =
      { result := some (.Wait "No leader pod found.")
        persisted := persisted
        trace := [.GetXStorePods, .TryGetXStoreLeaderPod] } := by
  unfold SetVoterElectionWeightToOne
  simp only [hpods, hv, if_false, hl]

/-- The branch of `SetVoterElectionWeightToOne` where the command is sent to
the leader: one remote execution, and `Pass` or `Error` after its result. -/
theorem SetVoter_leader (rc : Context) (persisted : ConfigMap) (pods : List Pod)
    (leaderPod : Pod)
    (hpods : rc.GetXStorePods = .ok pods)
    (hv : (FilterPodsBy pods (fun pod => IsPodRoleVoter rc.conv pod)).length ≠ 0)
    (hl : rc.TryGetXStoreLeaderPod = .ok (some leaderPod)) :
    SetVoterElectionWeightToOne rc persisted =
      { result :=
          match rc.ExecuteCommandOn leaderPod rc.conv.ContainerEngine
              { weight := 1
                targets := ToObjectNames (FilterPodsBy pods (fun pod => IsPodRoleVoter rc.conv pod)) }
              { Timeout := 2 * Second } with
          | some err =>
            some (.Error err "Unable to set election weight to 1."
              [("leader-pod", .Str leaderPod.Name),
               ("voter-pods",
                 .Strs (ToObjectNames (FilterPodsBy pods (fun pod => IsPodRoleVoter rc.conv pod))))])
          | none => some .Pass
        persisted := persisted
        trace := [.GetXStorePods, .TryGetXStoreLeaderPod,
          .ExecuteCommandOn leaderPod rc.conv.ContainerEngine
            { weight := 1
              targets := ToObjectNames (FilterPodsBy pods (fun pod => IsPodRoleVoter rc.conv pod)) }
            { Timeout := 2 * Second }] } := by
  unfold SetVoterElectionWeightToOne setElectionWeightToOne
  simp only [hpods, hv, if_false, hl]
  cases rc.ExecuteCommandOn leaderPod rc.conv.ContainerEngine
      { weight := 1
        targets := ToObjectNames (FilterPodsBy pods (fun pod => IsPodRoleVoter rc.conv pod)) }
      { Timeout := 2 * Second } <;> rfl

/-- No voter among the pods means the filtered list is empty. -/
theorem voterPods_length_eq_zero (conv : Convention) (pods : List Pod)
    (h : ∀ pod ∈ pods, IsPodRoleVoter conv pod = false) :
    (FilterPodsBy pods (fun pod => IsPodRoleVoter conv pod)).length = 0 := by
  unfold FilterPodsBy
  rw [List.length_eq_zero, List.filter_eq_nil_iff]
  intro pod hmem
  simp [h pod hmem]

/-- A voter among the pods means the filtered list is not empty. -/
theorem voterPods_length_ne_zero (conv : Convention) (pods : List Pod)
    (h : ∃ pod ∈ pods, IsPodRoleVoter conv pod = true) :
    (FilterPodsBy pods (fun pod => IsPodRoleVoter conv pod)).length ≠ 0 := by
  obtain ⟨pod, hmem, hv⟩ := h
  unfold FilterPodsBy
  intro hlen
  rw [List.length_eq_zero, List.filter_eq_nil_iff] at hlen
  exact hlen pod hmem hv

/-- C4. No-voter short-circuit: for every successfully fetched pod list in
which no pod has the voter role, `SetVoterElectionWeightToOne` returns `Pass`;
the pod fetch is its only external call, so leader resolution is not invoked
and no remote command is executed. -/
theorem SetVoterElectionWeightToOne_no_voter (rc : Context) (persisted : ConfigMap)
    (pods : List Pod)
    (hpods : rc.GetXStorePods = .ok pods)
    (hnv : ∀ pod ∈ pods, IsPodRoleVoter rc.conv pod = false) :
    (SetVoterElectionWeightToOne rc persisted).result = some .Pass ∧
    (SetVoterElectionWeightToOne rc persisted).trace = [.GetXStorePods] ∧
    leaderResolutions (SetVoterElectionWeightToOne rc persisted).trace = 0 ∧
    commands (SetVoterElectionWeightToOne rc persisted).trace = [] ∧
    (commands (SetVoterElectionWeightToOne rc persisted).trace).length = 0 := by
  rw [SetVoter_no_voters rc persisted pods hpods (voterPods_length_eq_zero rc.conv pods hnv)]
  simp [leaderResolutions, commands]

/-- C4, on a single leader-eligible pod: `Pass`, and no command although a
leader would be resolvable. -/
theorem SetVoterElectionWeightToOne_no_voter_witness :
    (∀ pod ∈ [testPod "p0" "ip0" "candidate"], IsPodRoleVoter testConvention pod = false) ∧
    (SetVoterElectionWeightToOne
        (testContext [testPod "p0" "ip0" "candidate"] false (some (testPod "p0" "ip0" "candidate")))
        blockedConfigMap).result = some .Pass ∧
    commands (SetVoterElectionWeightToOne
        (testContext [testPod "p0" "ip0" "candidate"] false (some (testPod "p0" "ip0" "candidate")))
        blockedConfigMap).trace = [] := by
  have h := SetVoterElectionWeightToOne_no_voter
    (testContext [testPod "p0" "ip0" "candidate"] false (some (testPod "p0" "ip0" "candidate")))
    blockedConfigMap [testPod "p0" "ip0" "candidate"] rfl (by decide)
  exact ⟨by decide, h.1, h.2.2.2.1⟩

/-- C5. No-leader wait, not fail: for every fetched pod list with at least one
voter pod, if leader resolution succeeds without a leader pod,
`SetVoterElectionWeightToOne` returns `Wait`, which is no `Error`, and executes
no remote command. -/
theorem SetVoterElectionWeightToOne_no_leader (rc : Context) (persisted : ConfigMap)
    (pods : List Pod)
    (hpods : rc.GetXStorePods = .ok pods)
    (hv : ∃ pod ∈ pods, IsPodRoleVoter rc.conv pod = true)
    (hl : rc.TryGetXStoreLeaderPod = .ok none) :
    (SetVoterElectionWeightToOne rc persisted).result = some (.Wait "No leader pod found.") ∧
    (∀ err msg keysAndValues,
      (SetVoterElectionWeightToOne rc persisted).result ≠
        some (.Error err msg keysAndValues)) ∧
    commands (SetVoterElectionWeightToOne rc persisted).trace = [] := by
  rw [SetVoter_no_leader rc persisted pods hpods (voterPods_length_ne_zero rc.conv pods hv) hl]
  simp [commands]

/-- C5, on the scenario pods before a leader is elected. -/
theorem SetVoterElectionWeightToOne_no_leader_witness :
    (∃ pod ∈ scenarioPods, IsPodRoleVoter testConvention pod = true) ∧
    (SetVoterElectionWeightToOne (testContext scenarioPods false none) blockedConfigMap).result =
      some (.Wait "No leader pod found.") ∧
    commands (SetVoterElectionWeightToOne (testContext scenarioPods false none)
      blockedConfigMap).trace = [] := by
  have h := SetVoterElectionWeightToOne_no_leader (testContext scenarioPods false none)
    blockedConfigMap scenarioPods rfl (by decide) rfl
  exact ⟨by decide, h.1, h.2.2⟩

/-- C6. Leader-directed weight command: for every fetched pod list with a
voter pod and a resolved leader pod, `SetVoterElectionWeightToOne` executes
exactly one remote command, on the leader pod (engine container, timeout of two
seconds), with weight 1 and as targets the names of the voter pods, all of
them and no other pod, in pod listing order; it returns `Pass` if the
execution succeeds, and if it fails the `Error` of the execution carrying the
leader pod name and the voter names. -/
theorem SetVoterElectionWeightToOne_leader_command (rc : Context) (persisted : ConfigMap)
    (pods : List Pod) (leaderPod : Pod)
    (hpods : rc.GetXStorePods = .ok pods)
    (hv : ∃ pod ∈ pods, IsPodRoleVoter rc.conv pod = true)
    (hl : rc.TryGetXStoreLeaderPod = .ok (some leaderPod)) :
    ∃ cmd : Command,
      commands (SetVoterElectionWeightToOne rc persisted).trace =
        [(leaderPod, rc.conv.ContainerEngine, cmd, { Timeout := 2 * Second })] ∧
      cmd.weight = 1 ∧
      cmd.targets = (pods.filter (fun pod => IsPodRoleVoter rc.conv pod)).map (fun pod => pod.Name) ∧
      (∀ pod ∈ pods, IsPodRoleVoter rc.conv pod = true → pod.Name ∈ cmd.targets) ∧
      (∀ name ∈ cmd.targets, ∃ pod ∈ pods, IsPodRoleVoter rc.conv pod = true ∧ pod.Name = name) ∧
      cmd.targets.Sublist (pods.map (fun pod => pod.Name)) ∧
      (rc.ExecuteCommandOn leaderPod rc.conv.ContainerEngine cmd { Timeout := 2 * Second } = none →
        (SetVoterElectionWeightToOne rc persisted).result = some .Pass) ∧
      (∀ err,
        rc.ExecuteCommandOn leaderPod rc.conv.ContainerEngine cmd { Timeout := 2 * Second } =
          some err →
        (SetVoterElectionWeightToOne rc persisted).result =
          some (.Error err "Unable to set election weight to 1."
            [("leader-pod", .Str leaderPod.Name), ("voter-pods", .Strs cmd.targets)])) := by
  rw [SetVoter_leader rc persisted pods leaderPod hpods
    (voterPods_length_ne_zero rc.conv pods hv) hl]
  refine ⟨{ weight := 1
            targets := ToObjectNames (FilterPodsBy pods (fun pod => IsPodRoleVoter rc.conv pod)) },
    by simp [commands], rfl, rfl, ?_, ?_, ?_, ?_, ?_⟩
  · intro pod hmem hvoter
    simp only [ToObjectNames, FilterPodsBy, List.mem_map, List.mem_filter]
    exact ⟨pod, ⟨hmem, hvoter⟩, rfl⟩
  · intro name hname
    simp only [ToObjectNames, FilterPodsBy, List.mem_map, List.mem_filter] at hname
    obtain ⟨pod, ⟨hmem, hvoter⟩, hn⟩ := hname
    exact ⟨pod, hmem, hvoter, hn⟩
  · simp only [ToObjectNames, FilterPodsBy]
    exact (List.filter_sublist pods).map _
  · intro hok
    simp only [hok]
  · intro err herr
    simp only [herr]

/-- C6, on the end-to-end scenario: pods `p0`, `p1` (voter), `p2` (voter) with
leader `p0`: one command, on `p0`, with weight 1 and targets `p1`, `p2`, and
the step returns `Pass`. -/
theorem SetVoterElectionWeightToOne_leader_command_witness :
    (∃ pod ∈ scenarioPods, IsPodRoleVoter testConvention pod = true) ∧
    commands (SetVoterElectionWeightToOne
        (testContext scenarioPods false (some (testPod "p0" "ip0" "candidate")))
        blockedConfigMap).trace =
      [(testPod "p0" "ip0" "candidate", "engine", { weight := 1, targets := ["p1", "p2"] },
        { Timeout := 2000000000 })] ∧
    (SetVoterElectionWeightToOne
        (testContext scenarioPods false (some (testPod "p0" "ip0" "candidate")))
        blockedConfigMap).result = some .Pass ∧
    (SetVoterElectionWeightToOne
        (failingExecContext scenarioPods (some (testPod "p0" "ip0" "candidate")))
        blockedConfigMap).result =
      some (.Error "command timed out" "Unable to set election weight to 1."
        [("leader-pod", .Str "p0"), ("voter-pods", .Strs ["p1", "p2"])]) := by
  obtain ⟨cmd, _, _, _, _, _, _, hpass, _⟩ := SetVoterElectionWeightToOne_leader_command
    (testContext scenarioPods false (some (testPod "p0" "ip0" "candidate")))
    blockedConfigMap scenarioPods (testPod "p0" "ip0" "candidate") rfl (by decide) rfl
  exact ⟨by decide, by decide, hpass rfl, by decide⟩

end GalaxyKube
